import Mathlib

/-!
Shallow embedding of `src/load_tests/validation/validate.go` (package main).

The program validates log delivery for a load test: it builds an expected
"record universe" (a Go `map[string]bool` keyed by decimal record ids),
streams all records from a destination (S3 listing + object fetch, or
CloudWatch log-stream paging), flags every expected id that is observed,
and reports totals, duplicates and loss percentage.

Modelling conventions:
  * Go `map[string]bool` is an association list ordered by insertion
    (`GoMap`); lookup and update follow Go map semantics.
  * Calls to AWS (`ListObjectsV2`, `GetObject`+`ReadAll`, `GetLogEvents`)
    and to `encoding/json` are external collaborators; they are modelled
    by explicit traces (one result per successive call) or by functions
    supplied in an environment record.
  * `exitErrorf` (fprintf to stderr + `os.Exit(1)`) is the `RunResult.fatal`
    outcome; a Go runtime panic (slice bounds, integer divide by zero) is
    `RunResult.panic`; `RunResult.outOfTrace` marks runs whose modelled
    call trace is too short (the real loop would keep calling).
  * Go `int` is modelled as `Int` (the tool's record counts stay far below
    2^63, so wrap-around is immaterial); Go integer division truncates
    toward zero, which is `Int.tdiv`.
  * Go strings are byte strings; all data handled here is ASCII, so they
    are modelled as Lean `String` with `String.data` as the byte view.
-/

namespace ValidateGo

/-! ### Go / stdlib primitives used by validate.go -/

/-- One decimal digit character, as produced by `strconv.Itoa`. -/
def digitChar (n : Nat) : Char := Nat.digitChar n

/-- Structural (fuel-indexed) core of decimal formatting: with enough fuel,
`itoaChars fuel n` is the decimal digit list of `n` (least fuel used when
`n < 10`). Mirrors `strconv.Itoa` for non-negative values. -/
def itoaChars : Nat → Nat → List Char
  | 0, _ => []
  | fuel + 1, n =>
    if n < 10 then [digitChar n]
    else itoaChars fuel (n / 10) ++ [digitChar (n % 10)]

/-- `strconv.Itoa` for a natural number: its decimal string. -/
def itoa (n : Nat) : String := (itoaChars (n + 1) n).asString

/-- Value of one ASCII digit character, `none` if not a digit. -/
def digitVal (c : Char) : Option Nat :=
  if '0' ≤ c ∧ c ≤ '9' then some (c.toNat - '0'.toNat) else none

/-- Accumulating decimal parse of a digit list; fails on any non-digit. -/
def digitsValAux : List Char → Nat → Option Nat
  | [], acc => some acc
  | c :: cs, acc =>
    match digitVal c with
    | some d => digitsValAux cs (acc * 10 + d)
    | none => none

/-- Decimal value of a non-empty all-digit list, else `none`. -/
def digitsVal : List Char → Option Nat
  | [] => none
  | l => digitsValAux l 0

/-- `strconv.Atoi`: optional sign followed by at least one digit; `none`
models the error return. (Range clipping of 64-bit `ParseInt` is ignored:
inputs of that magnitude are immaterial here.) -/
def atoiOpt (s : String) : Option Int :=
  match s.data with
  | '+' :: rest => (digitsVal rest).map (fun n => (n : Int))
  | '-' :: rest => (digitsVal rest).map (fun n => -(n : Int))
  | l => (digitsVal l).map (fun n => (n : Int))

/-- `strconv.Atoi` as used at validate.go line 61: the error is discarded
with `_`, so a failed parse yields the zero value. -/
def atoi (s : String) : Int := (atoiOpt s).getD 0

/-- Go `map[string]bool`, as an insertion-ordered association list. -/
abbrev GoMap := List (String × Bool)

/-- Go map read, `m[k]`: value of the first (only) entry with key `k`. -/
def mapLookup : GoMap → String → Option Bool
  | [], _ => none
  | (k', v) :: rest, k => if k' = k then some v else mapLookup rest k

/-- Go map write, `m[k] = v`: update the entry if the key is present,
otherwise insert a new entry. -/
def mapSet : GoMap → String → Bool → GoMap
  | [], k, v => [(k, v)]
  | (k', v') :: rest, k, v =>
    if k' = k then (k', v) :: rest else (k', v') :: mapSet rest k v

/-- `aws.StringValue`: dereference a `*string`, `nil` reads as `""`. -/
def stringValue : Option String → String
  | none => ""
  | some s => s

/-- `aws.BoolValue`: dereference a `*bool`, `nil` reads as `false`. -/
def boolValue : Option Bool → Bool
  | none => false
  | some b => b

/-- Whether `pat` is an initial segment of `l` (helper for substring search). -/
def beginsWith : List Char → List Char → Bool
  | [], _ => true
  | _ :: _, [] => false
  | p :: ps, c :: cs => p == c && beginsWith ps cs

/-- Whether `pat` occurs contiguously in `l` (helper for `strings.Contains`). -/
def containsSub (pat : List Char) : List Char → Bool
  | [] => beginsWith pat []
  | c :: cs => beginsWith pat (c :: cs) || containsSub pat cs

/-- `strings.Contains(s, sub)`. -/
def stringContains (s sub : String) : Bool := containsSub sub.data s.data

/-- Split a character list at every occurrence of `sep` (fragments keep
order, separators dropped; `[]` splits to `[[]]`, as Go does). -/
def splitChar (sep : Char) : List Char → List (List Char)
  | [] => [[]]
  | c :: cs =>
    if c = sep then [] :: splitChar sep cs
    else
      match splitChar sep cs with
      | [] => [[c]]
      | l :: ls => (c :: l) :: ls

/-- `strings.Split(s, "\n")` (validate.go line 145; the separator there is
the single line-feed character). -/
def stringsSplitNL (s : String) : List String :=
  (splitChar (Char.ofNat 10) s.data).map List.asString

/-! ### Program outcomes -/

/-- Outcome of running a piece of the program. `fatal` is `exitErrorf`
(exit status 1), `panic` is a Go runtime panic, `outOfTrace` means the
modelled call trace was exhausted while the loop would keep calling. -/
inductive RunResult (α : Type) where
  | ok : α → RunResult α
  | fatal : String → RunResult α
  | panic : String → RunResult α
  | outOfTrace : RunResult α
deriving DecidableEq

/-! ### Data model (validate.go structs and AWS response shapes) -/

/-- Go `type Message struct { Log string }` (validate.go lines 27-29). -/
structure Message where
  Log : String
deriving DecidableEq

/-- One CloudWatch log event: the `Message *string` field used by the code. -/
structure OutputLogEvent where
  Message : Option String
deriving DecidableEq

/-- The fields of a `GetLogEvents` response that validate.go reads. -/
structure GetLogEventsResponse where
  Events : List OutputLogEvent
  NextForwardToken : Option String
deriving DecidableEq

/-- One result of calling `cwClient.GetLogEvents`: an error string
(`err.Error()`) or a response. -/
abbrev CWCall := Except String GetLogEventsResponse

/-- The fields of a `ListObjectsV2` response that validate.go reads
(`Contents` reduced to the object keys, the only field used). -/
structure S3ListResponse where
  Contents : List String
  IsTruncated : Option Bool
  NextContinuationToken : Option String
deriving DecidableEq

/-- External collaborators of `validate_s3`: the successive results of
`s3Client.ListObjectsV2`, the object bodies delivered by
`GetObject`+`ReadAll` (an error there is fatal inside `getS3Object` or at
the `ReadAll` check), and `encoding/json`'s `Unmarshal` into `Message`. -/
structure S3Env where
  listCalls : List (Except String S3ListResponse)
  getObject : String → Except String String
  jsonUnmarshal : String → Except String Message

/-! ### Record observation (shared loop body) -/

/-- The observation step both validators run per decoded record id
(validate.go lines 159-165 and 243-249): increment the running record
counter and, when the id is a key of the map, set its flag to true. -/
def observeRecord (counter : Nat) (m : GoMap) (recordId : String) :
    Nat × GoMap :=
  (counter + 1,
    if (mapLookup m recordId).isSome then mapSet m recordId true else m)

/-- Go `log[:8]` (validate.go lines 160 and 244): the first 8 bytes of the
payload; slicing a shorter string is a runtime panic. -/
def sliceTo8 (log : String) : Except String String :=
  if log.data.length < 8 then .error "runtime error: slice bounds out of range"
  else .ok (log.data.take 8).asString

/-! ### validate_s3 (validate.go lines 112-178) -/

/-- The line loop of `validate_s3` (lines 147-166): skip empty lines,
unmarshal the envelope (fatal on failure), slice the record id (panic when
the payload is shorter than 8 bytes), observe the record. -/
def processLines (env : S3Env) :
    List String → Nat → GoMap → RunResult (Nat × GoMap)
  | [], c, m => .ok (c, m)
  | d :: rest, c, m =>
    if d = "" then processLines env rest c m
    else
      match env.jsonUnmarshal d with
      | .error _ => .fatal "[TEST FAILURE] Json Unmarshal Error:"
      | .ok message =>
        match sliceTo8 message.Log with
        | .error s => .panic s
        | .ok recordId =>
          let step := observeRecord c m recordId
          processLines env rest step.1 step.2

/-- The object loop of `validate_s3` (lines 132-167): fetch each listed
object (fatal on failure), count it, split its body on line feeds and run
the line loop. State is (record counter, object counter, map). -/
def processContents (env : S3Env) :
    List String → Nat → Nat → GoMap → RunResult (Nat × Nat × GoMap)
  | [], rc, oc, m => .ok (rc, oc, m)
  | key :: rest, rc, oc, m =>
    match env.getObject key with
    | .error _ => .fatal "[TEST FAILURE] Error occured to get s3 object:"
    | .ok body =>
      match processLines env (stringsSplitNL body) rc m with
      | .ok (rc', m') => processContents env rest rc' (oc + 1) m'
      | .fatal s => .fatal s
      | .panic s => .panic s
      | .outOfTrace => .outOfTrace

/-- Result of a paging loop together with the cursor supplied to each
paging call it made, in order. -/
structure LoopOut (α : Type) where
  result : RunResult α
  requests : List (Option String)
deriving DecidableEq

/-- The paging loop of `validate_s3` (lines 120-173): list objects with the
current continuation token (any listing error is immediately fatal, line
129), process the page, stop when `IsTruncated` is false, otherwise
continue with `NextContinuationToken`. -/
def s3Loop (env : S3Env) :
    List (Except String S3ListResponse) → Option String → Nat → Nat →
    GoMap → LoopOut (Nat × GoMap)
  | [], _, _, _, _ => ⟨.outOfTrace, []⟩
  | call :: rest, token, rc, oc, m =>
    match call with
    | .error _ =>
      ⟨.fatal "[TEST FAILURE] Error occured to get the objects from bucket:",
        [token]⟩
    | .ok response =>
      match processContents env response.Contents rc oc m with
      | .ok (rc', oc', m') =>
        if boolValue response.IsTruncated then
          let out := s3Loop env rest response.NextContinuationToken rc' oc' m'
          ⟨out.result, token :: out.requests⟩
        else ⟨.ok (rc', m'), [token]⟩
      | .fatal s => ⟨.fatal s, [token]⟩
      | .panic s => ⟨.panic s, [token]⟩
      | .outOfTrace => ⟨.outOfTrace, [token]⟩

/-- `validate_s3` (lines 112-178): start with no continuation token and
zero counters. Returns the record count and final map, plus the trace of
paging requests. -/
def validate_s3 (env : S3Env) (inputMap : GoMap) : LoopOut (Nat × GoMap) :=
  s3Loop env env.listCalls none 0 0 inputMap

/-! ### validate_cloudwatch (validate.go lines 206-261) -/

/-- Go `strings.Contains(err.Error(), "ThrottlingException: Rate exceeded")`
(line 232): the transient-fault test. -/
def throttled (e : String) : Bool :=
  stringContains e "ThrottlingException: Rate exceeded"

/-- The event loop of `validate_cloudwatch` (lines 240-250): dereference the
message (`nil` reads as `""`), slice the record id (panic when shorter than
8 bytes), observe the record. -/
def processEvents :
    List OutputLogEvent → Nat → GoMap → RunResult (Nat × GoMap)
  | [], c, m => .ok (c, m)
  | e :: rest, c, m =>
    match sliceTo8 (stringValue e.Message) with
    | .error s => .panic s
    | .ok recordId =>
      let step := observeRecord c m recordId
      processEvents rest step.1 step.2

/-- Result of the CloudWatch paging loop: outcome, the forward token
supplied to each `GetLogEvents` call in order (a retried call repeats its
token), and the number of 1-second `time.Sleep` calls performed. -/
structure CWLoopOut where
  result : RunResult (Nat × GoMap)
  requests : List (Option String)
  sleeps : Nat
deriving DecidableEq

/-- The paging loop of `validate_cloudwatch` (lines 213-258): call
`GetLogEvents` with the current forward token (absent on the first call);
while the call errs, retry after a 1-second sleep with the same input if
the error is a throttling exception, otherwise exit fatally (lines
229-238); process the events; stop when the returned forward token equals
the supplied one as dereferenced string values (line 253), else continue
with the returned token. -/
def cwLoop : List CWCall → Option String → Nat → GoMap → CWLoopOut
  | [], _, _, _ => ⟨.outOfTrace, [], 0⟩
  | call :: rest, forwardToken, c, m =>
    match call with
    | .error e =>
      if throttled e then
        let out := cwLoop rest forwardToken c m
        ⟨out.result, forwardToken :: out.requests, out.sleeps + 1⟩
      else
        ⟨.fatal "[TEST FAILURE] Error occured to get the log events from log group:",
          [forwardToken], 0⟩
    | .ok response =>
      match processEvents response.Events c m with
      | .ok (c', m') =>
        if stringValue response.NextForwardToken = stringValue forwardToken
        then ⟨.ok (c', m'), [forwardToken], 0⟩
        else
          let out := cwLoop rest response.NextForwardToken c' m'
          ⟨out.result, forwardToken :: out.requests, out.sleeps⟩
      | .fatal s => ⟨.fatal s, [forwardToken], 0⟩
      | .panic s => ⟨.panic s, [forwardToken], 0⟩
      | .outOfTrace => ⟨.outOfTrace, [forwardToken], 0⟩

/-- `validate_cloudwatch` (lines 206-261): start with no forward token and a
zero counter. -/
def validate_cloudwatch (calls : List CWCall) (inputMap : GoMap) : CWLoopOut :=
  cwLoop calls none 0 inputMap

/-! ### get_results and main (validate.go lines 31-93 and 263-282) -/

/-- The numbers printed by `get_results`. `missingRecords` is `some` exactly
when the missing-records line is printed (line 279-281). -/
structure Results where
  totalInputRecord : Int
  totalRecordFound : Int
  uniqueRecordFound : Int
  duplicateRecords : Int
  logDelay : String
  logLoss : Int
  missingRecords : Option Int
deriving DecidableEq

/-- Count of true-flagged entries of the map (the range loop at lines
266-270; iteration order does not affect a count). -/
def countTrue (m : GoMap) : Nat := m.countP (fun p => p.2)

/-- `get_results` (lines 263-282). Go division truncates toward zero
(`Int.tdiv`); dividing by a zero `totalInputRecord` is a runtime panic. -/
def get_results (totalInputRecord totalRecordFound : Int) (recordMap : GoMap)
    (logDelay : String) : RunResult Results :=
  let uniqueRecordFound : Int := (countTrue recordMap : Nat)
  if totalInputRecord = 0 then .panic "runtime error: integer divide by zero"
  else
    .ok
      { totalInputRecord := totalInputRecord
        totalRecordFound := totalRecordFound
        uniqueRecordFound := uniqueRecordFound
        duplicateRecords := totalRecordFound - uniqueRecordFound
        logDelay := logDelay
        logLoss := Int.tdiv ((totalInputRecord - uniqueRecordFound) * 100)
          totalInputRecord
        missingRecords :=
          if totalInputRecord ≠ uniqueRecordFound
          then some (totalInputRecord - uniqueRecordFound) else none }

/-- `idCounterBase` (validate.go line 24). -/
def idCounterBase : Nat := 10000000

/-- The universe-building loop of `main` (lines 63-67): insert
`strconv.Itoa(base + i) ↦ false` for `i` in `[0, totalInputRecord)`; a
non-positive count runs the loop zero times. The base is a parameter here
(main instantiates it with `idCounterBase`). -/
def buildInputMap (totalInputRecord : Int) (base : Nat) : GoMap :=
  (List.range totalInputRecord.toNat).foldl
    (fun m i => mapSet m (itoa (base + i)) false) []

/-- The configuration `main` reads: the five environment variables and the
two positional arguments. `prefixVal` models the Go local `prefix`
(env var LOG_PREFIX). -/
structure Config where
  region : String
  bucket : String
  logGroup : String
  prefixVal : String
  destination : String
  arg1 : String
  arg2 : String

/-- `main` (validate.go lines 31-93): reject each empty configuration input
fatally with its own message, in order; parse the count discarding the
parse error (line 61); build the universe; dispatch on the destination
literal (an unrecognized destination reads nothing, lines 74-89); report.
Client-construction errors are modelled by the optional error arguments. -/
def mainModel (cfg : Config) (s3ClientErr cwClientErr : Option String)
    (env : S3Env) (cwCalls : List CWCall) : RunResult Results :=
  if cfg.region = "" then
    .fatal "[TEST FAILURE] AWS Region required. Set the value for environment variable- AWS_REGION"
  else if cfg.bucket = "" then
    .fatal "[TEST FAILURE] Bucket name required. Set the value for environment variable- S3_BUCKET_NAME"
  else if cfg.logGroup = "" then
    .fatal "[TEST FAILURE] Log group name required. Set the value for environment variable- CW_LOG_GROUP_NAME"
  else if cfg.prefixVal = "" then
    .fatal "[TEST FAILURE] Object prefix required. Set the value for environment variable- LOG_PREFIX"
  else if cfg.destination = "" then
    .fatal "[TEST FAILURE] Log destination for validation required. Set the value for environment variable- DESTINATION"
  else if cfg.arg1 = "" then
    .fatal "[TEST FAILURE] Total input record number required. Set the value as the first argument"
  else if cfg.arg2 = "" then
    .fatal "[TEST FAILURE] Log delay required. Set the value as the second argument"
  else if cfg.destination = "s3" then
    match s3ClientErr with
    | some _ => .fatal "[TEST FAILURE] Unable to create new S3 client:"
    | none =>
      match (validate_s3 env (buildInputMap (atoi cfg.arg1) idCounterBase)).result with
      | .ok (found, m) => get_results (atoi cfg.arg1) found m cfg.arg2
      | .fatal s => .fatal s
      | .panic s => .panic s
      | .outOfTrace => .outOfTrace
  else if cfg.destination = "cloudwatch" then
    match cwClientErr with
    | some _ => .fatal "[TEST FAILURE] Unable to create new CloudWatch client:"
    | none =>
      match (validate_cloudwatch cwCalls (buildInputMap (atoi cfg.arg1) idCounterBase)).result with
      | .ok (found, m) => get_results (atoi cfg.arg1) found m cfg.arg2
      | .fatal s => .fatal s
      | .panic s => .panic s
      | .outOfTrace => .outOfTrace
  else
    get_results (atoi cfg.arg1) 0 (buildInputMap (atoi cfg.arg1) idCounterBase)
      cfg.arg2

/-! ### Association-list (Go map) lemmas -/

theorem mapLookup_mapSet_self (m : GoMap) (k : String) (v : Bool) :
    mapLookup (mapSet m k v) k = some v := by
  induction m with
  | nil => simp [mapSet, mapLookup]
  | cons p rest ih =>
    by_cases h : p.1 = k
    · simp [mapSet, mapLookup, h]
    · simpa [mapSet, mapLookup, h] using ih

theorem mapLookup_mapSet_ne (m : GoMap) (k k' : String) (v : Bool)
    (h : k' ≠ k) : mapLookup (mapSet m k v) k' = mapLookup m k' := by
  have hkk : ¬k = k' := fun hk => h hk.symm
  induction m with
  | nil => simp [mapSet, mapLookup, hkk]
  | cons p rest ih =>
    by_cases hp : p.1 = k
    · subst hp
      have hp' : ¬p.1 = k' := hkk
      simp [mapSet, mapLookup, hp']
    · simp [mapSet, mapLookup, hp, ih]

theorem mapLookup_eq_none_iff (m : GoMap) (k : String) :
    mapLookup m k = none ↔ k ∉ m.map Prod.fst := by
  induction m with
  | nil => simp [mapLookup]
  | cons p rest ih =>
    by_cases h : p.1 = k
    · simp [mapLookup, h]
    · have h' : ¬k = p.1 := fun hk => h hk.symm
      simp [mapLookup, h, h', ih]

theorem mapSet_of_absent (m : GoMap) (k : String) (v : Bool)
    (h : k ∉ m.map Prod.fst) : mapSet m k v = m ++ [(k, v)] := by
  induction m with
  | nil => simp [mapSet]
  | cons p rest ih =>
    simp only [List.map_cons, List.mem_cons, not_or] at h
    have h1 : ¬p.1 = k := fun hk => h.1 hk.symm
    simp [mapSet, h1, ih h.2]

/-! ### Injectivity of the decimal formatter -/

theorem digitChar_inj : ∀ a, a < 10 → ∀ b, b < 10 →
    digitChar a = digitChar b → a = b := by decide

theorem map_digitChar_inj : ∀ l1 l2 : List Nat, (∀ x ∈ l1, x < 10) →
    (∀ x ∈ l2, x < 10) → l1.map digitChar = l2.map digitChar → l1 = l2 := by
  intro l1
  induction l1 with
  | nil =>
    intro l2 _ _ h
    cases l2 with
    | nil => rfl
    | cons b bs => simp at h
  | cons a as ih =>
    intro l2 h1 h2 h
    cases l2 with
    | nil => simp at h
    | cons b bs =>
      simp only [List.map_cons, List.cons.injEq] at h
      have ha : a = b :=
        digitChar_inj a (h1 a (List.mem_cons_self a as)) b
          (h2 b (List.mem_cons_self b bs)) h.1
      have hs : as = bs :=
        ih bs (fun x hx => h1 x (List.mem_cons_of_mem a hx))
          (fun x hx => h2 x (List.mem_cons_of_mem b hx)) h.2
      rw [ha, hs]

theorem asString_inj (l1 l2 : List Char) (h : l1.asString = l2.asString) :
    l1 = l2 := by
  simpa [List.asString] using congrArg String.data h

/-- With enough fuel, the structural formatter agrees with the mathematical
decimal digit expansion (most significant digit first). -/
theorem itoaChars_eq_digits : ∀ n fuel, n < fuel → n ≠ 0 →
    itoaChars fuel n = ((Nat.digits 10 n).reverse.map digitChar) := by
  intro n
  induction n using Nat.strong_induction_on with
  | _ n ih =>
    intro fuel hfuel hn
    match fuel, hfuel with
    | fuel + 1, hfuel =>
      by_cases hlt : n < 10
      · have hdig : Nat.digits 10 n = [n] := by
          rw [Nat.digits_def' (by norm_num : 1 < 10) (Nat.pos_of_ne_zero hn),
            Nat.mod_eq_of_lt hlt, Nat.div_eq_of_lt hlt, Nat.digits_zero]
        simp [itoaChars, hlt, hdig]
      · push_neg at hlt
        have hq : n / 10 ≠ 0 := by
          have : 1 ≤ n / 10 := (Nat.le_div_iff_mul_le (by norm_num)).2 (by omega)
          omega
        have hqlt : n / 10 < n := Nat.div_lt_self (by omega) (by norm_num)
        have hqfuel : n / 10 < fuel := by omega
        have hdig : Nat.digits 10 n = n % 10 :: Nat.digits 10 (n / 10) :=
          Nat.digits_def' (by norm_num : 1 < 10) (by omega)
        rw [itoaChars, if_neg (by omega), ih (n / 10) hqlt fuel hqfuel hq, hdig]
        simp

theorem itoa_inj : ∀ m n : Nat, itoa m = itoa n → m = n := by
  have base : ∀ n : Nat, n ≠ 0 → itoa n ≠ itoa 0 := by
    intro n hn hcontra
    have hchars : (Nat.digits 10 n).reverse.map digitChar = ['0'] := by
      have h1 : itoaChars (n + 1) n = ['0'] := asString_inj _ _ hcontra
      rwa [itoaChars_eq_digits n (n + 1) (Nat.lt_succ_self n) hn] at h1
    have hrev : ∃ d, (Nat.digits 10 n).reverse = [d] ∧ digitChar d = '0' := by
      cases hr : (Nat.digits 10 n).reverse with
      | nil => rw [hr] at hchars; simp at hchars
      | cons d ds =>
        rw [hr] at hchars
        cases ds with
        | nil => exact ⟨d, rfl, by simpa using hchars⟩
        | cons d' ds' => simp at hchars
    obtain ⟨d, hd, hdc⟩ := hrev
    have hmem : d ∈ Nat.digits 10 n := by
      have : d ∈ (Nat.digits 10 n).reverse := by rw [hd]; simp
      simpa using this
    have hd10 : d < 10 := Nat.digits_lt_base (by norm_num) hmem
    have hd0 : d = 0 := digitChar_inj d hd10 0 (by norm_num) hdc
    have hdigs : Nat.digits 10 n = [0] := by
      have := congrArg List.reverse hd
      simpa [hd0] using this
    have : n = 0 := by
      have := Nat.ofDigits_digits 10 n
      rw [hdigs] at this
      simpa [Nat.ofDigits] using this.symm
    exact hn this
  intro m n h
  by_cases hm : m = 0 <;> by_cases hn : n = 0
  · rw [hm, hn]
  · exact absurd (hm ▸ h).symm (base n hn)
  · exact absurd (hn ▸ h) (base m hm)
  · have hchars := asString_inj _ _ h
    rw [itoaChars_eq_digits m (m + 1) (Nat.lt_succ_self m) hm,
      itoaChars_eq_digits n (n + 1) (Nat.lt_succ_self n) hn] at hchars
    have hrev := map_digitChar_inj _ _
      (fun x hx => Nat.digits_lt_base (by norm_num) (by simpa using hx))
      (fun x hx => Nat.digits_lt_base (by norm_num) (by simpa using hx)) hchars
    have hdigs : Nat.digits 10 m = Nat.digits 10 n := by
      have := congrArg List.reverse hrev
      simpa using this
    exact Nat.digits_inj_iff.mp hdigs

/-! ### Closed form of the universe builder -/

theorem buildInputMap_foldl (base : Nat) : ∀ n : Nat,
    (List.range n).foldl (fun m i => mapSet m (itoa (base + i)) false) [] =
      (List.range n).map (fun i => (itoa (base + i), false)) := by
  intro n
  induction n with
  | zero => rfl
  | succ n ih =>
    rw [List.range_succ, List.foldl_append, List.map_append, ih]
    have habs : itoa (base + n) ∉
        ((List.range n).map fun i => (itoa (base + i), false)).map Prod.fst := by
      intro hmem
      simp only [List.map_map, List.mem_map, Function.comp] at hmem
      obtain ⟨i, hi, hkey⟩ := hmem
      have := itoa_inj _ _ hkey
      have : i = n := by omega
      rw [List.mem_range] at hi
      omega
    simp [mapSet_of_absent _ _ _ habs]

theorem buildInputMap_eq (t : Int) (base : Nat) :
    buildInputMap t base =
      (List.range t.toNat).map (fun i => (itoa (base + i), false)) :=
  buildInputMap_foldl base t.toNat

theorem mapLookup_const_false (l : List String) (k : String) :
    mapLookup (l.map (fun s => (s, false))) k =
      if k ∈ l then some false else none := by
  induction l with
  | nil => simp [mapLookup]
  | cons s rest ih =>
    by_cases h : s = k
    · simp [mapLookup, h]
    · have h' : ¬k = s := fun hk => h hk.symm
      simp [mapLookup, h, h', ih]

theorem countTrue_const_false (l : List String) :
    countTrue (l.map (fun s => (s, false))) = 0 := by
  simp [countTrue, List.countP_eq_zero]

/-! ### The Record Universe invariant -/

/-- The map evolution invariant: the key set is unchanged and each flag is
either unchanged or flipped from false to true. -/
def evolves (m m' : GoMap) : Prop :=
  (∀ k, (mapLookup m' k).isSome ↔ (mapLookup m k).isSome) ∧
  (∀ k b, mapLookup m' k = some b →
    mapLookup m k = some b ∨ (b = true ∧ mapLookup m k = some false))

theorem evolves_refl (m : GoMap) : evolves m m :=
  ⟨fun _ => Iff.rfl, fun _ _ h => Or.inl h⟩

theorem evolves_trans {m1 m2 m3 : GoMap} (h12 : evolves m1 m2)
    (h23 : evolves m2 m3) : evolves m1 m3 := by
  refine ⟨fun k => (h23.1 k).trans (h12.1 k), fun k b h3 => ?_⟩
  rcases h23.2 k b h3 with h2 | ⟨hb, h2⟩
  · exact h12.2 k b h2
  · rcases h12.2 k false h2 with h1 | ⟨hfalse, _⟩
    · exact Or.inr ⟨hb, h1⟩
    · cases hfalse

theorem evolves_mapSet_true {m : GoMap} {k : String}
    (h : (mapLookup m k).isSome) : evolves m (mapSet m k true) := by
  constructor
  · intro k'
    by_cases hk : k' = k
    · subst hk
      simp [mapLookup_mapSet_self, h]
    · rw [mapLookup_mapSet_ne m k k' true hk]
  · intro k' b hb
    by_cases hk : k' = k
    · subst hk
      rw [mapLookup_mapSet_self] at hb
      cases hb
      cases hv : mapLookup m k' with
      | none => rw [hv] at h; cases h
      | some v =>
        cases v
        · exact Or.inr ⟨rfl, rfl⟩
        · exact Or.inl rfl
    · rw [mapLookup_mapSet_ne m k k' true hk] at hb
      exact Or.inl hb

theorem evolves_observeRecord (c : Nat) (m : GoMap) (recordId : String) :
    evolves m (observeRecord c m recordId).2 := by
  unfold observeRecord
  by_cases h : (mapLookup m recordId).isSome
  · simpa [h] using evolves_mapSet_true h
  · simpa [h] using evolves_refl m

theorem processLines_evolves (env : S3Env) : ∀ (ds : List String)
    (c : Nat) (m : GoMap) (c' : Nat) (m' : GoMap),
    processLines env ds c m = .ok (c', m') → evolves m m' := by
  intro ds
  induction ds with
  | nil =>
    intro c m c' m' h
    simp only [processLines, RunResult.ok.injEq, Prod.mk.injEq] at h
    rw [← h.2]
    exact evolves_refl m
  | cons d rest ih =>
    intro c m c' m' h
    by_cases hd : d = ""
    · rw [processLines, if_pos hd] at h
      exact ih c m c' m' h
    · rw [processLines, if_neg hd] at h
      cases hj : env.jsonUnmarshal d with
      | error e => simp only [hj] at h; cases h
      | ok message =>
        simp only [hj] at h
        cases hs : sliceTo8 message.Log with
        | error s => simp only [hs] at h; cases h
        | ok recordId =>
          simp only [hs] at h
          exact evolves_trans (evolves_observeRecord c m recordId)
            (ih _ _ _ _ h)

theorem processContents_evolves (env : S3Env) : ∀ (keys : List String)
    (rc oc : Nat) (m : GoMap) (rc' oc' : Nat) (m' : GoMap),
    processContents env keys rc oc m = .ok (rc', oc', m') → evolves m m' := by
  intro keys
  induction keys with
  | nil =>
    intro rc oc m rc' oc' m' h
    simp only [processContents, RunResult.ok.injEq, Prod.mk.injEq] at h
    rw [← h.2.2]
    exact evolves_refl m
  | cons key rest ih =>
    intro rc oc m rc' oc' m' h
    rw [processContents] at h
    cases hg : env.getObject key with
    | error e => simp only [hg] at h; cases h
    | ok body =>
      simp only [hg] at h
      cases hp : processLines env (stringsSplitNL body) rc m with
      | ok out =>
        obtain ⟨rc1, m1⟩ := out
        simp only [hp] at h
        exact evolves_trans (processLines_evolves env _ _ _ _ _ hp)
          (ih _ _ _ _ _ _ h)
      | fatal s => simp only [hp] at h; cases h
      | panic s => simp only [hp] at h; cases h
      | outOfTrace => simp only [hp] at h; cases h

theorem s3Loop_evolves (env : S3Env) :
    ∀ (trace : List (Except String S3ListResponse)) (token : Option String)
    (rc oc : Nat) (m : GoMap) (c' : Nat) (m' : GoMap),
    (s3Loop env trace token rc oc m).result = .ok (c', m') → evolves m m' := by
  intro trace
  induction trace with
  | nil => intro token rc oc m c' m' h; cases h
  | cons call rest ih =>
    intro token rc oc m c' m' h
    cases call with
    | error e => simp only [s3Loop] at h; cases h
    | ok response =>
      rw [s3Loop] at h
      cases hp : processContents env response.Contents rc oc m with
      | ok out =>
        obtain ⟨rc1, oc1, m1⟩ := out
        simp only [hp] at h
        by_cases ht : boolValue response.IsTruncated
        · rw [if_pos ht] at h
          simp only at h
          exact evolves_trans (processContents_evolves env _ _ _ _ _ _ _ hp)
            (ih _ _ _ _ _ _ h)
        · rw [if_neg ht] at h
          simp only [RunResult.ok.injEq, Prod.mk.injEq] at h
          rw [← h.2]
          exact processContents_evolves env _ _ _ _ _ _ _ hp
      | fatal s => simp only [hp] at h; cases h
      | panic s => simp only [hp] at h; cases h
      | outOfTrace => simp only [hp] at h; cases h

theorem processEvents_evolves : ∀ (events : List OutputLogEvent)
    (c : Nat) (m : GoMap) (c' : Nat) (m' : GoMap),
    processEvents events c m = .ok (c', m') → evolves m m' := by
  intro events
  induction events with
  | nil =>
    intro c m c' m' h
    simp only [processEvents, RunResult.ok.injEq, Prod.mk.injEq] at h
    rw [← h.2]
    exact evolves_refl m
  | cons e rest ih =>
    intro c m c' m' h
    rw [processEvents] at h
    cases hs : sliceTo8 (stringValue e.Message) with
    | error s => simp only [hs] at h; cases h
    | ok recordId =>
      simp only [hs] at h
      exact evolves_trans (evolves_observeRecord c m recordId) (ih _ _ _ _ h)

theorem cwLoop_evolves : ∀ (calls : List CWCall) (token : Option String)
    (c : Nat) (m : GoMap) (c' : Nat) (m' : GoMap),
    (cwLoop calls token c m).result = .ok (c', m') → evolves m m' := by
  intro calls
  induction calls with
  | nil => intro token c m c' m' h; cases h
  | cons call rest ih =>
    intro token c m c' m' h
    cases call with
    | error e =>
      rw [cwLoop] at h
      by_cases ht : throttled e
      · rw [if_pos ht] at h
        exact ih _ _ _ _ _ h
      · rw [if_neg ht] at h
        cases h
    | ok response =>
      rw [cwLoop] at h
      cases hp : processEvents response.Events c m with
      | ok out =>
        obtain ⟨c1, m1⟩ := out
        simp only [hp] at h
        by_cases htok : stringValue response.NextForwardToken =
            stringValue token
        · rw [if_pos htok] at h
          simp only [RunResult.ok.injEq, Prod.mk.injEq] at h
          rw [← h.2]
          exact processEvents_evolves _ _ _ _ _ hp
        · rw [if_neg htok] at h
          simp only at h
          exact evolves_trans (processEvents_evolves _ _ _ _ _ hp)
            (ih _ _ _ _ _ h)
      | fatal s => simp only [hp] at h; cases h
      | panic s => simp only [hp] at h; cases h
      | outOfTrace => simp only [hp] at h; cases h

/-! ### Pagination step lemmas -/

theorem cwLoop_stop (rest : List CWCall) (response : GetLogEventsResponse)
    (token : Option String) (c c' : Nat) (m m' : GoMap)
    (hp : processEvents response.Events c m = .ok (c', m'))
    (htok : stringValue response.NextForwardToken = stringValue token) :
    cwLoop (.ok response :: rest) token c m = ⟨.ok (c', m'), [token], 0⟩ := by
  rw [cwLoop]
  simp only [hp]
  rw [if_pos htok]

theorem cwLoop_continue (rest : List CWCall)
    (response : GetLogEventsResponse) (token : Option String) (c c' : Nat)
    (m m' : GoMap) (hp : processEvents response.Events c m = .ok (c', m'))
    (htok : stringValue response.NextForwardToken ≠ stringValue token) :
    cwLoop (.ok response :: rest) token c m =
      ⟨(cwLoop rest response.NextForwardToken c' m').result,
        token :: (cwLoop rest response.NextForwardToken c' m').requests,
        (cwLoop rest response.NextForwardToken c' m').sleeps⟩ := by
  rw [cwLoop]
  simp only [hp]
  rw [if_neg htok]

theorem cwLoop_requests_head (call : CWCall) (rest : List CWCall)
    (token : Option String) (c : Nat) (m : GoMap) :
    (cwLoop (call :: rest) token c m).requests.head? = some token := by
  cases call with
  | error e =>
    rw [cwLoop]
    by_cases ht : throttled e
    · rw [if_pos ht]; rfl
    · rw [if_neg ht]; rfl
  | ok response =>
    rw [cwLoop]
    cases hp : processEvents response.Events c m with
    | ok out =>
      obtain ⟨c', m'⟩ := out
      simp only [hp]
      by_cases htok : stringValue response.NextForwardToken =
          stringValue token
      · rw [if_pos htok]; rfl
      · rw [if_neg htok]; rfl
    | fatal s => simp only [hp]; rfl
    | panic s => simp only [hp]; rfl
    | outOfTrace => simp only [hp]; rfl

theorem cwLoop_retry (e : String) (rest : List CWCall)
    (token : Option String) (c : Nat) (m : GoMap)
    (ht : throttled e = true) :
    cwLoop (.error e :: rest) token c m =
      ⟨(cwLoop rest token c m).result,
        token :: (cwLoop rest token c m).requests,
        (cwLoop rest token c m).sleeps + 1⟩ := by
  rw [cwLoop, if_pos ht]

theorem cwLoop_nontransient_fatal (e : String) (rest : List CWCall)
    (token : Option String) (c : Nat) (m : GoMap)
    (ht : throttled e = false) :
    cwLoop (.error e :: rest) token c m =
      ⟨.fatal "[TEST FAILURE] Error occured to get the log events from log group:",
        [token], 0⟩ := by
  rw [cwLoop, if_neg (by simp [ht])]

/-- Deleting one transient (throttling) fault from anywhere in the call
trace leaves the loop outcome unchanged: retry is observationally
transparent to the reconciliation state. -/
theorem cwLoop_throttle_transparent (e : String) (ht : throttled e = true) :
    ∀ (tr1 tr2 : List CWCall) (token : Option String) (c : Nat) (m : GoMap),
    (cwLoop (tr1 ++ .error e :: tr2) token c m).result =
      (cwLoop (tr1 ++ tr2) token c m).result := by
  intro tr1
  induction tr1 with
  | nil =>
    intro tr2 token c m
    rw [List.nil_append, List.nil_append, cwLoop_retry e tr2 token c m ht]
  | cons call rest ih =>
    intro tr2 token c m
    rw [List.cons_append, List.cons_append]
    cases call with
    | error e' =>
      by_cases ht' : throttled e'
      · rw [cwLoop_retry e' _ token c m ht', cwLoop_retry e' _ token c m ht']
        exact ih tr2 token c m
      · rw [cwLoop_nontransient_fatal e' _ token c m (by simpa using ht'),
          cwLoop_nontransient_fatal e' _ token c m (by simpa using ht')]
    | ok response =>
      cases hp : processEvents response.Events c m with
      | ok out =>
        obtain ⟨c', m'⟩ := out
        by_cases htok : stringValue response.NextForwardToken =
            stringValue token
        · rw [cwLoop_stop _ response token c c' m m' hp htok,
            cwLoop_stop _ response token c c' m m' hp htok]
        · rw [cwLoop_continue _ response token c c' m m' hp htok,
            cwLoop_continue _ response token c c' m m' hp htok]
          exact ih tr2 _ c' m'
      | fatal s =>
        rw [cwLoop, cwLoop]
        simp only [hp]
      | panic s =>
        rw [cwLoop, cwLoop]
        simp only [hp]
      | outOfTrace =>
        rw [cwLoop, cwLoop]
        simp only [hp]

theorem s3Loop_stop (env : S3Env) (rest : List (Except String S3ListResponse))
    (response : S3ListResponse) (token : Option String) (rc oc rc' oc' : Nat)
    (m m' : GoMap)
    (hp : processContents env response.Contents rc oc m = .ok (rc', oc', m'))
    (ht : boolValue response.IsTruncated = false) :
    s3Loop env (.ok response :: rest) token rc oc m =
      ⟨.ok (rc', m'), [token]⟩ := by
  rw [s3Loop]
  simp only [hp]
  rw [if_neg (by simp [ht])]

theorem s3Loop_continue (env : S3Env)
    (rest : List (Except String S3ListResponse)) (response : S3ListResponse)
    (token : Option String) (rc oc rc' oc' : Nat) (m m' : GoMap)
    (hp : processContents env response.Contents rc oc m = .ok (rc', oc', m'))
    (ht : boolValue response.IsTruncated = true) :
    s3Loop env (.ok response :: rest) token rc oc m =
      ⟨(s3Loop env rest response.NextContinuationToken rc' oc' m').result,
        token ::
          (s3Loop env rest response.NextContinuationToken rc' oc' m').requests⟩ := by
  rw [s3Loop]
  simp only [hp]
  rw [if_pos ht]

theorem s3Loop_error_fatal (env : S3Env) (e : String)
    (rest : List (Except String S3ListResponse)) (token : Option String)
    (rc oc : Nat) (m : GoMap) :
    s3Loop env (.error e :: rest) token rc oc m =
      ⟨.fatal "[TEST FAILURE] Error occured to get the objects from bucket:",
        [token]⟩ := by
  rw [s3Loop]

theorem s3Loop_requests_head (env : S3Env)
    (call : Except String S3ListResponse)
    (rest : List (Except String S3ListResponse)) (token : Option String)
    (rc oc : Nat) (m : GoMap) :
    (s3Loop env (call :: rest) token rc oc m).requests.head? = some token := by
  cases call with
  | error e => rw [s3Loop]; rfl
  | ok response =>
    rw [s3Loop]
    cases hp : processContents env response.Contents rc oc m with
    | ok out =>
      obtain ⟨rc', oc', m'⟩ := out
      simp only [hp]
      by_cases ht : boolValue response.IsTruncated
      · rw [if_pos ht]; rfl
      · rw [if_neg ht]; rfl
    | fatal s => simp only [hp]; rfl
    | panic s => simp only [hp]; rfl
    | outOfTrace => simp only [hp]; rfl

/-! ### Reporting and main-flow lemmas -/

theorem mapSet_eq_of_lookup (m : GoMap) (k : String) (v : Bool)
    (h : mapLookup m k = some v) : mapSet m k v = m := by
  induction m with
  | nil => cases h
  | cons p rest ih =>
    by_cases hp : p.1 = k
    · rw [mapLookup, if_pos hp] at h
      cases h
      show (if p.1 = k then (p.1, p.2) :: rest else _) = _
      rw [if_pos hp]
    · rw [mapLookup, if_neg hp] at h
      show (if p.1 = k then _ else (p.1, p.2) :: mapSet rest k v) = _
      rw [if_neg hp, ih h]

theorem countTrue_buildInputMap (t : Int) (base : Nat) :
    countTrue (buildInputMap t base) = 0 := by
  rw [buildInputMap_eq]
  have h : (List.range t.toNat).map (fun i => (itoa (base + i), false)) =
      ((List.range t.toNat).map (fun i => itoa (base + i))).map
        (fun s => (s, false)) := by
    rw [List.map_map]
    rfl
  rw [h, countTrue_const_false]

theorem buildInputMap_flags_false (t : Int) (base : Nat) :
    ∀ p ∈ buildInputMap t base, p.2 = false := by
  rw [buildInputMap_eq]
  intro p hp
  rw [List.mem_map] at hp
  obtain ⟨i, _, hip⟩ := hp
  rw [← hip]

theorem get_results_ok (N T : Int) (m : GoMap) (d : String) (hN : N ≠ 0) :
    get_results N T m d =
      .ok ⟨N, T, (countTrue m : Nat), T - (countTrue m : Nat), d,
        Int.tdiv ((N - (countTrue m : Nat)) * 100) N,
        if N ≠ ((countTrue m : Nat) : Int) then some (N - (countTrue m : Nat))
        else none⟩ := by
  rw [get_results, if_neg hN]

theorem get_results_zero_panic (T : Int) (m : GoMap) (d : String) :
    get_results 0 T m d = .panic "runtime error: integer divide by zero" := by
  rw [get_results, if_pos rfl]

theorem mainModel_unknown_dest (cfg : Config) (s3e cwe : Option String)
    (env : S3Env) (calls : List CWCall)
    (h1 : cfg.region ≠ "") (h2 : cfg.bucket ≠ "") (h3 : cfg.logGroup ≠ "")
    (h4 : cfg.prefixVal ≠ "") (h5 : cfg.destination ≠ "")
    (h6 : cfg.arg1 ≠ "") (h7 : cfg.arg2 ≠ "")
    (hd1 : cfg.destination ≠ "s3") (hd2 : cfg.destination ≠ "cloudwatch") :
    mainModel cfg s3e cwe env calls =
      get_results (atoi cfg.arg1) 0 (buildInputMap (atoi cfg.arg1) idCounterBase)
        cfg.arg2 := by
  rw [mainModel.eq_def, if_neg h1, if_neg h2, if_neg h3, if_neg h4, if_neg h5,
    if_neg h6, if_neg h7, if_neg hd1, if_neg hd2]

theorem mainModel_cloudwatch_ok (cfg : Config) (s3e : Option String)
    (env : S3Env) (calls : List CWCall) (found : Nat) (m : GoMap)
    (h1 : cfg.region ≠ "") (h2 : cfg.bucket ≠ "") (h3 : cfg.logGroup ≠ "")
    (h4 : cfg.prefixVal ≠ "") (h6 : cfg.arg1 ≠ "") (h7 : cfg.arg2 ≠ "")
    (hd : cfg.destination = "cloudwatch")
    (hok : (validate_cloudwatch calls
      (buildInputMap (atoi cfg.arg1) idCounterBase)).result = .ok (found, m)) :
    mainModel cfg s3e none env calls =
      get_results (atoi cfg.arg1) found m cfg.arg2 := by
  have h5 : cfg.destination ≠ "" := by rw [hd]; decide
  have hs3 : cfg.destination ≠ "s3" := by rw [hd]; decide
  rw [mainModel.eq_def, if_neg h1, if_neg h2, if_neg h3, if_neg h4, if_neg h5,
    if_neg h6, if_neg h7, if_neg hs3, if_pos hd]
  simp only [hok]

/-! ### Claim theorems -/

/-- C4: observing a record identifier increments the total-lines-seen
counter unconditionally by exactly 1 per observation (two observations
increment it by exactly 2); if the identifier is a key of the universe its
flag is set to true and repeated observation of the same known identifier
is idempotent on the map; observing an identifier not in the universe
mutates no flag. -/
theorem observe_contract (c : Nat) (m : GoMap) (recordId : String) :
    (observeRecord c m recordId).1 = c + 1 ∧
    (observeRecord (observeRecord c m recordId).1
      (observeRecord c m recordId).2 recordId).1 = c + 2 ∧
    ((mapLookup m recordId).isSome →
      mapLookup (observeRecord c m recordId).2 recordId = some true ∧
      (observeRecord (observeRecord c m recordId).1
        (observeRecord c m recordId).2 recordId).2 =
        (observeRecord c m recordId).2) ∧
    (mapLookup m recordId = none → (observeRecord c m recordId).2 = m) := by
  refine ⟨rfl, rfl, fun h => ?_, fun h => ?_⟩
  · have hsnd : (observeRecord c m recordId).2 = mapSet m recordId true := by
      simp only [observeRecord]
      rw [if_pos h]
    have hlook : mapLookup (observeRecord c m recordId).2 recordId =
        some true := by
      rw [hsnd]
      exact mapLookup_mapSet_self m recordId true
    refine ⟨hlook, ?_⟩
    have hsome : (mapLookup (observeRecord c m recordId).2 recordId).isSome := by
      rw [hlook]
      rfl
    show (if (mapLookup (observeRecord c m recordId).2 recordId).isSome
      then mapSet (observeRecord c m recordId).2 recordId true
      else (observeRecord c m recordId).2) = (observeRecord c m recordId).2
    rw [if_pos hsome]
    exact mapSet_eq_of_lookup _ _ _ hlook
  · show (if (mapLookup m recordId).isSome then mapSet m recordId true else m)
      = m
    rw [if_neg (by rw [h]; decide)]

/-- C4 witness: a known id is flagged true and an unknown id leaves the map
unchanged on a concrete one-entry universe. -/
theorem observe_contract_witness :
    mapLookup (observeRecord 0 [("10000000", false)] "10000000").2
      "10000000" = some true ∧
    (observeRecord 0 [("10000000", false)] "99999999").2 =
      [("10000000", false)] :=
  ⟨((observe_contract 0 [("10000000", false)] "10000000").2.2.1
      (by decide)).1,
    (observe_contract 0 [("10000000", false)] "99999999").2.2.2 (by decide)⟩

/-- C5: for every N > 0, T and final universe the Reporter returns
duplicates = T − uniqueFound and lossPercent = (N − uniqueFound)·100 / N
with integer division truncating toward zero (which agrees with floor
division whenever uniqueFound ≤ N); consequently lossPercent is 0 when
uniqueFound = N, 100 when uniqueFound = 0, and duplicates is non-negative
whenever T ≥ uniqueFound. -/
theorem get_results_contract (N T : Int) (m : GoMap) (d : String)
    (hN : 0 < N) :
    ∃ r, get_results N T m d = .ok r ∧
      r.uniqueRecordFound = (countTrue m : Int) ∧
      r.duplicateRecords = T - (countTrue m : Int) ∧
      r.logLoss = Int.tdiv ((N - (countTrue m : Int)) * 100) N ∧
      ((countTrue m : Int) ≤ N →
        r.logLoss = ((N - (countTrue m : Int)) * 100) / N) ∧
      ((countTrue m : Int) = N → r.logLoss = 0) ∧
      ((countTrue m : Int) = 0 → r.logLoss = 100) ∧
      ((countTrue m : Int) ≤ T → 0 ≤ r.duplicateRecords) := by
  refine ⟨_, get_results_ok N T m d (by omega), rfl, rfl, rfl, ?_, ?_, ?_, ?_⟩
  · intro h
    exact Int.tdiv_eq_ediv
      (mul_nonneg (by omega) (by norm_num)) (le_of_lt hN)
  · intro h
    show Int.tdiv ((N - (countTrue m : Int)) * 100) N = 0
    rw [h]
    simp [Int.zero_tdiv]
  · intro h
    show Int.tdiv ((N - (countTrue m : Int)) * 100) N = 100
    rw [h, Int.sub_zero, Int.mul_tdiv_cancel_left 100 (by omega)]
  · intro h
    show 0 ≤ T - ((countTrue m : Nat) : Int)
    omega

/-- C5 witness: a concrete report with N = 5, T = 5 and 3 found entries. -/
theorem get_results_contract_witness :
    ∃ r, get_results 5 5
        [("10000000", true), ("10000001", true), ("10000002", false),
          ("10000003", true), ("10000004", false)] "60s" = .ok r ∧
      r.uniqueRecordFound = (countTrue
        [("10000000", true), ("10000001", true), ("10000002", false),
          ("10000003", true), ("10000004", false)] : Int) ∧
      r.duplicateRecords = 5 - (countTrue
        [("10000000", true), ("10000001", true), ("10000002", false),
          ("10000003", true), ("10000004", false)] : Int) ∧
      r.logLoss = Int.tdiv ((5 - (countTrue
        [("10000000", true), ("10000001", true), ("10000002", false),
          ("10000003", true), ("10000004", false)] : Int)) * 100) 5 ∧
      ((countTrue
        [("10000000", true), ("10000001", true), ("10000002", false),
          ("10000003", true), ("10000004", false)] : Int) ≤ 5 →
        r.logLoss = ((5 - (countTrue
          [("10000000", true), ("10000001", true), ("10000002", false),
            ("10000003", true), ("10000004", false)] : Int)) * 100) / 5) ∧
      ((countTrue
        [("10000000", true), ("10000001", true), ("10000002", false),
          ("10000003", true), ("10000004", false)] : Int) = 5 →
        r.logLoss = 0) ∧
      ((countTrue
        [("10000000", true), ("10000001", true), ("10000002", false),
          ("10000003", true), ("10000004", false)] : Int) = 0 →
        r.logLoss = 100) ∧
      ((countTrue
        [("10000000", true), ("10000001", true), ("10000002", false),
          ("10000003", true), ("10000004", false)] : Int) ≤ 5 →
        0 ≤ r.duplicateRecords) :=
  get_results_contract 5 5
    [("10000000", true), ("10000001", true), ("10000002", false),
      ("10000003", true), ("10000004", false)] "60s" (by decide)

/-- C6: for all N ≥ 1 and base, the built Record Universe has exactly N
entries, each key is the decimal string of base + i for some i < N, each
such key maps to false, and every entry is one of these. -/
theorem record_universe_build_contract (n base : Nat) (h : 1 ≤ n) :
    (buildInputMap (n : Int) base).length = n ∧
    (∀ i, i < n →
      mapLookup (buildInputMap (n : Int) base) (itoa (base + i)) =
        some false) ∧
    (∀ p, p ∈ buildInputMap (n : Int) base →
      ∃ i, i < n ∧ p = (itoa (base + i), false)) := by
  have he : buildInputMap (n : Int) base =
      (List.range n).map (fun i => (itoa (base + i), false)) := by
    rw [buildInputMap_eq, Int.toNat_ofNat]
  have hmm : (List.range n).map (fun i => (itoa (base + i), false)) =
      ((List.range n).map (fun i => itoa (base + i))).map
        (fun s => (s, false)) := by
    rw [List.map_map]
    rfl
  refine ⟨?_, ?_, ?_⟩
  · rw [he, List.length_map, List.length_range]
  · intro i hi
    rw [he, hmm, mapLookup_const_false,
      if_pos (List.mem_map.mpr ⟨i, List.mem_range.mpr hi, rfl⟩)]
  · intro p hp
    rw [he, List.mem_map] at hp
    obtain ⟨i, hi, hpi⟩ := hp
    exact ⟨i, List.mem_range.mp hi, hpi.symm⟩

/-- C6 witness: the two-record universe at base 7 satisfies the contract. -/
theorem record_universe_build_contract_witness :
    (buildInputMap ((2 : Nat) : Int) 7).length = 2 ∧
    (∀ i, i < 2 →
      mapLookup (buildInputMap ((2 : Nat) : Int) 7) (itoa (7 + i)) =
        some false) ∧
    (∀ p, p ∈ buildInputMap ((2 : Nat) : Int) 7 →
      ∃ i, i < 2 ∧ p = (itoa (7 + i), false)) :=
  record_universe_build_contract 2 7 (by decide)

/-- C7: the Record Universe invariant is preserved: each observation step,
and each successful run of either validation strategy, keeps the key set
unchanged and only ever flips flags from false to true. -/
theorem universe_invariant :
    (∀ c m recordId, evolves m (observeRecord c m recordId).2) ∧
    (∀ env m c' m', (validate_s3 env m).result = .ok (c', m') →
      evolves m m') ∧
    (∀ calls m c' m', (validate_cloudwatch calls m).result = .ok (c', m') →
      evolves m m') := by
  refine ⟨evolves_observeRecord, ?_, ?_⟩
  · intro env m c' m' h
    exact s3Loop_evolves env env.listCalls none 0 0 m c' m' h
  · intro calls m c' m' h
    exact cwLoop_evolves calls none 0 m c' m' h

/-- C7 witness: concrete runs of both strategies evolve a concrete
universe without inserting keys or resetting flags. -/
theorem universe_invariant_witness :
    evolves [("10000000", false)]
      (observeRecord 0 [("10000000", false)] "10000000").2 ∧
    evolves [("10000000", false)] [("10000000", true)] ∧
    evolves [("10000000", false), ("10000001", false)]
      [("10000000", true), ("10000001", false)] :=
  ⟨universe_invariant.1 0 [("10000000", false)] "10000000",
    universe_invariant.2.1
      ⟨[.ok ⟨["key1"], some false, none⟩], fun _ => .ok "{x}",
        fun _ => .ok ⟨"10000000_abc"⟩⟩
      [("10000000", false)] 1 [("10000000", true)] (by decide),
    universe_invariant.2.2 [.ok ⟨[⟨some "10000000_xyz"⟩], none⟩]
      [("10000000", false), ("10000001", false)] 1
      [("10000000", true), ("10000001", false)] (by decide)⟩

/-- C1: log-stream paging terminates exactly when the forward cursor
returned by a call equals the cursor supplied to that call (cursors are
compared as dereferenced string values, absent reading as empty, exactly
as the code compares them): a call whose returned cursor equals the
supplied one is the last, a call whose returned cursor differs is followed
by another call supplying the returned cursor, the first call of a run
carries no cursor, and in the scenario where the cursor strictly changes
for 2 calls then repeats on the 3rd exactly 3 paging calls occur. -/
theorem cw_pagination_contract :
    (∀ rest response token c c' m m',
      processEvents response.Events c m = .ok (c', m') →
      stringValue response.NextForwardToken = stringValue token →
      cwLoop (.ok response :: rest) token c m = ⟨.ok (c', m'), [token], 0⟩) ∧
    (∀ rest response token c c' m m',
      processEvents response.Events c m = .ok (c', m') →
      stringValue response.NextForwardToken ≠ stringValue token →
      (cwLoop (.ok response :: rest) token c m).requests =
        token :: (cwLoop rest response.NextForwardToken c' m').requests ∧
      (rest ≠ [] →
        (cwLoop rest response.NextForwardToken c' m').requests.head? =
          some response.NextForwardToken)) ∧
    (∀ calls m, calls ≠ [] →
      (validate_cloudwatch calls m).requests.head? = some none) ∧
    (∀ t1 t2 c m, stringValue (some t1) ≠ stringValue none →
      stringValue (some t2) ≠ stringValue (some t1) →
      cwLoop [.ok ⟨[], some t1⟩, .ok ⟨[], some t2⟩, .ok ⟨[], some t2⟩]
          none c m =
        ⟨.ok (c, m), [none, some t1, some t2], 0⟩) := by
  refine ⟨?_, ?_, ?_, ?_⟩
  · intro rest response token c c' m m' hp htok
    exact cwLoop_stop rest response token c c' m m' hp htok
  · intro rest response token c c' m m' hp htok
    constructor
    · rw [cwLoop_continue rest response token c c' m m' hp htok]
    · intro hne
      cases rest with
      | nil => cases hne rfl
      | cons call rest' => exact cwLoop_requests_head call rest' _ c' m'
  · intro calls m hne
    cases calls with
    | nil => cases hne rfl
    | cons call rest => exact cwLoop_requests_head call rest none 0 m
  · intro t1 t2 c m h1 h2
    rw [cwLoop_continue _ ⟨[], some t1⟩ none c c m m rfl h1,
      cwLoop_continue _ ⟨[], some t2⟩ (some t1) c c m m rfl h2,
      cwLoop_stop [] ⟨[], some t2⟩ (some t2) c c m m rfl rfl]

/-- C1 witness: concrete stop, continue and 3-page-scenario runs. -/
theorem cw_pagination_contract_witness :
    cwLoop [.ok ⟨[], none⟩] none 0 [] = ⟨.ok (0, []), [none], 0⟩ ∧
    (cwLoop [.ok ⟨[], some "t"⟩, .ok ⟨[], some "t"⟩] none 0 []).requests =
      none :: (cwLoop [.ok ⟨[], some "t"⟩] (some "t") 0 []).requests ∧
    (validate_cloudwatch [.ok ⟨[], none⟩] []).requests.head? = some none ∧
    cwLoop [.ok ⟨[], some "t1"⟩, .ok ⟨[], some "t2"⟩, .ok ⟨[], some "t2"⟩]
        none 0 [] =
      ⟨.ok (0, []), [none, some "t1", some "t2"], 0⟩ :=
  ⟨cw_pagination_contract.1 [.ok ⟨[], some "t"⟩].tail ⟨[], none⟩ none 0 0 [] []
      rfl rfl,
    (cw_pagination_contract.2.1 [.ok ⟨[], some "t"⟩] ⟨[], some "t"⟩ none 0 0
      [] [] rfl (by decide)).1,
    cw_pagination_contract.2.2.1 [.ok ⟨[], none⟩] []
      (List.cons_ne_nil _ _),
    cw_pagination_contract.2.2.2 "t1" "t2" 0 [] (by decide) (by decide)⟩

/-- C8: object-store listing repeats with the continuation cursor of the
previous response and terminates exactly when a response declares no
truncation: a non-truncated page is the last call, a truncated page is
followed by another call supplying its continuation cursor, the first call
of a run carries no cursor, and in the scenario of two truncated pages
with distinct cursors followed by a non-truncated page exactly 3 listing
calls occur. -/
theorem s3_pagination_contract :
    (∀ env rest response token rc oc rc' oc' m m',
      processContents env response.Contents rc oc m = .ok (rc', oc', m') →
      boolValue response.IsTruncated = false →
      s3Loop env (.ok response :: rest) token rc oc m =
        ⟨.ok (rc', m'), [token]⟩) ∧
    (∀ env rest response token rc oc rc' oc' m m',
      processContents env response.Contents rc oc m = .ok (rc', oc', m') →
      boolValue response.IsTruncated = true →
      (s3Loop env (.ok response :: rest) token rc oc m).requests =
        token ::
          (s3Loop env rest response.NextContinuationToken rc' oc' m').requests ∧
      (rest ≠ [] →
        (s3Loop env rest response.NextContinuationToken rc' oc'
          m').requests.head? = some response.NextContinuationToken)) ∧
    (∀ env m, env.listCalls ≠ [] →
      (validate_s3 env m).requests.head? = some none) ∧
    (∀ env t1 t2 rc oc m, t1 ≠ t2 →
      s3Loop env
          [.ok ⟨[], some true, some t1⟩, .ok ⟨[], some true, some t2⟩,
            .ok ⟨[], some false, none⟩] none rc oc m =
        ⟨.ok (rc, m), [none, some t1, some t2]⟩) := by
  refine ⟨?_, ?_, ?_, ?_⟩
  · intro env rest response token rc oc rc' oc' m m' hp ht
    exact s3Loop_stop env rest response token rc oc rc' oc' m m' hp ht
  · intro env rest response token rc oc rc' oc' m m' hp ht
    constructor
    · rw [s3Loop_continue env rest response token rc oc rc' oc' m m' hp ht]
    · intro hne
      cases rest with
      | nil => cases hne rfl
      | cons call rest' => exact s3Loop_requests_head env call rest' _ rc' oc' m'
  · intro env m hne
    cases hc : env.listCalls with
    | nil => cases hne hc
    | cons call rest =>
      show (s3Loop env env.listCalls none 0 0 m).requests.head? = some none
      rw [hc]
      exact s3Loop_requests_head env call rest none 0 0 m
  · intro env t1 t2 rc oc m hne
    rw [s3Loop_continue env _ ⟨[], some true, some t1⟩ none rc oc rc oc m m
        rfl rfl,
      s3Loop_continue env _ ⟨[], some true, some t2⟩ (some t1) rc oc rc oc m m
        rfl rfl,
      s3Loop_stop env [] ⟨[], some false, none⟩ (some t2) rc oc rc oc m m
        rfl rfl]

/-- C8 witness: concrete stop, continue and 3-page-scenario runs. -/
theorem s3_pagination_contract_witness :
    s3Loop ⟨[], fun _ => .ok "", fun _ => .error "e"⟩
        [.ok ⟨[], some false, none⟩] none 0 0 [] = ⟨.ok (0, []), [none]⟩ ∧
    (s3Loop ⟨[], fun _ => .ok "", fun _ => .error "e"⟩
        [.ok ⟨[], some true, some "t"⟩, .ok ⟨[], some false, none⟩]
        none 0 0 []).requests =
      none :: (s3Loop ⟨[], fun _ => .ok "", fun _ => .error "e"⟩
        [.ok ⟨[], some false, none⟩] (some "t") 0 0 []).requests ∧
    (validate_s3 ⟨[.ok ⟨[], some false, none⟩], fun _ => .ok "",
        fun _ => .error "e"⟩ []).requests.head? = some none ∧
    s3Loop ⟨[], fun _ => .ok "", fun _ => .error "e"⟩
        [.ok ⟨[], some true, some "t1"⟩, .ok ⟨[], some true, some "t2"⟩,
          .ok ⟨[], some false, none⟩] none 0 0 [] =
      ⟨.ok (0, []), [none, some "t1", some "t2"]⟩ :=
  ⟨s3_pagination_contract.1 ⟨[], fun _ => .ok "", fun _ => .error "e"⟩ []
      ⟨[], some false, none⟩ none 0 0 0 0 [] [] rfl rfl,
    (s3_pagination_contract.2.1 ⟨[], fun _ => .ok "", fun _ => .error "e"⟩
      [.ok ⟨[], some false, none⟩] ⟨[], some true, some "t"⟩ none 0 0 0 0
      [] [] rfl rfl).1,
    s3_pagination_contract.2.2.1
      ⟨[.ok ⟨[], some false, none⟩], fun _ => .ok "", fun _ => .error "e"⟩
      [] (List.cons_ne_nil _ _),
    s3_pagination_contract.2.2.2 ⟨[], fun _ => .ok "", fun _ => .error "e"⟩
      "t1" "t2" 0 0 [] (by decide)⟩

/-- C2 counterexample: in `validate_s3` a transient rate-limiting fault on
the first listing call is immediately fatal after a single call — it is
not retried — whereas the identical run without the fault completes with
final counts; so the retry policy does not hold for the object-store
strategy and the faulted run's outcome differs from the fault-free one. -/
theorem s3_transient_fault_fatal_counterexample :
    validate_s3
        ⟨[.error "ThrottlingException: Rate exceeded",
            .ok ⟨[], some false, none⟩],
          fun _ => .ok "", fun _ => .error "e"⟩ [("10000000", false)] =
      ⟨.fatal "[TEST FAILURE] Error occured to get the objects from bucket:",
        [none]⟩ ∧
    validate_s3 ⟨[.ok ⟨[], some false, none⟩], fun _ => .ok "",
        fun _ => .error "e"⟩ [("10000000", false)] =
      ⟨.ok (0, [("10000000", false)]), [none]⟩ := by decide

/-- C2 (amended): only the log-stream strategy retries transient
rate-limiting faults — after a 1-second sleep, indefinitely, with the same
request parameters, until success or a non-transient (fatal) fault — and
such a retry is observationally transparent to the final counts; in
`validate_s3` every listing fault, transient or not, is immediately
fatal. -/
theorem retry_policy_contract :
    (∀ e rest token c m, throttled e = true →
      cwLoop (.error e :: rest) token c m =
        ⟨(cwLoop rest token c m).result,
          token :: (cwLoop rest token c m).requests,
          (cwLoop rest token c m).sleeps + 1⟩) ∧
    (∀ e rest token c m, throttled e = false →
      cwLoop (.error e :: rest) token c m =
        ⟨.fatal "[TEST FAILURE] Error occured to get the log events from log group:",
          [token], 0⟩) ∧
    (∀ e tr1 tr2 token c m, throttled e = true →
      (cwLoop (tr1 ++ .error e :: tr2) token c m).result =
        (cwLoop (tr1 ++ tr2) token c m).result) ∧
    (∀ env e rest token rc oc m,
      s3Loop env (.error e :: rest) token rc oc m =
        ⟨.fatal "[TEST FAILURE] Error occured to get the objects from bucket:",
          [token]⟩) := by
  refine ⟨?_, ?_, ?_, ?_⟩
  · intro e rest token c m ht
    exact cwLoop_retry e rest token c m ht
  · intro e rest token c m ht
    exact cwLoop_nontransient_fatal e rest token c m ht
  · intro e tr1 tr2 token c m ht
    exact cwLoop_throttle_transparent e ht tr1 tr2 token c m
  · intro env e rest token rc oc m
    exact s3Loop_error_fatal env e rest token rc oc m

/-- C2 witness: a concrete throttled call is retried with the same token
and one extra sleep, a concrete non-transient fault is fatal, a throttle
inserted mid-trace leaves the result unchanged, and a concrete `validate_s3`
listing fault is fatal. -/
theorem retry_policy_contract_witness :
    cwLoop [.error "ThrottlingException: Rate exceeded", .ok ⟨[], none⟩]
        none 0 [] =
      ⟨(cwLoop [.ok ⟨[], none⟩] none 0 []).result,
        none :: (cwLoop [.ok ⟨[], none⟩] none 0 []).requests,
        (cwLoop [.ok ⟨[], none⟩] none 0 []).sleeps + 1⟩ ∧
    cwLoop [.error "AccessDenied", .ok ⟨[], none⟩] none 0 [] =
      ⟨.fatal "[TEST FAILURE] Error occured to get the log events from log group:",
        [none], 0⟩ ∧
    (cwLoop ([.ok ⟨[], some "t"⟩] ++
        .error "ThrottlingException: Rate exceeded" :: [.ok ⟨[], some "t"⟩])
        none 0 []).result =
      (cwLoop ([.ok ⟨[], some "t"⟩] ++ [.ok ⟨[], some "t"⟩]) none 0
        []).result ∧
    s3Loop ⟨[], fun _ => .ok "", fun _ => .error "e"⟩
        [.error "ThrottlingException: Rate exceeded"] none 0 0 [] =
      ⟨.fatal "[TEST FAILURE] Error occured to get the objects from bucket:",
        [none]⟩ :=
  ⟨retry_policy_contract.1 "ThrottlingException: Rate exceeded"
      [.ok ⟨[], none⟩] none 0 [] (by decide),
    retry_policy_contract.2.1 "AccessDenied" [.ok ⟨[], none⟩] none 0 []
      (by decide),
    retry_policy_contract.2.2.1 "ThrottlingException: Rate exceeded"
      [.ok ⟨[], some "t"⟩] [.ok ⟨[], some "t"⟩] none 0 [] (by decide),
    retry_policy_contract.2.2.2 ⟨[], fun _ => .ok "", fun _ => .error "e"⟩
      "ThrottlingException: Rate exceeded" [] none 0 0 []⟩

/-- C9 counterexample: a well-formed envelope whose payload is shorter
than 8 characters drives `validate_s3` into the unchecked-slice runtime
panic of `message.Log[:8]` — not a handled malformed-input fault. -/
theorem short_payload_panic_counterexample :
    (validate_s3 ⟨[.ok ⟨["key1"], some false, none⟩], fun _ => .ok "x",
        fun _ => .ok ⟨"short"⟩⟩ []).result =
      .panic "runtime error: slice bounds out of range" := by decide

/-- C9 (amended): a malformed envelope (failing structural parse) is a
handled fatal fault aborting the run; a payload shorter than 8 characters
is an unchecked slice — a runtime panic aborting the run — in both
strategies; a payload of at least 8 characters yields its first 8
characters as the record id. -/
theorem extract_failure_contract :
    (∀ (env : S3Env) d e rest c m, d ≠ "" →
      env.jsonUnmarshal d = .error e →
      processLines env (d :: rest) c m =
        .fatal "[TEST FAILURE] Json Unmarshal Error:") ∧
    (∀ (env : S3Env) d message rest c m, d ≠ "" →
      env.jsonUnmarshal d = .ok message →
      message.Log.data.length < 8 →
      processLines env (d :: rest) c m =
        .panic "runtime error: slice bounds out of range") ∧
    (∀ (ev : OutputLogEvent) rest c m,
      (stringValue ev.Message).data.length < 8 →
      processEvents (ev :: rest) c m =
        .panic "runtime error: slice bounds out of range") ∧
    (∀ log : String, 8 ≤ log.data.length →
      sliceTo8 log = .ok (log.data.take 8).asString) := by
  refine ⟨?_, ?_, ?_, ?_⟩
  · intro env d e rest c m hd hj
    rw [processLines, if_neg hd]
    simp only [hj]
  · intro env d message rest c m hd hj hlen
    rw [processLines, if_neg hd]
    simp only [hj]
    rw [show sliceTo8 message.Log =
      .error "runtime error: slice bounds out of range" from by
        rw [sliceTo8, if_pos hlen]]
  · intro ev rest c m hlen
    rw [processEvents]
    rw [show sliceTo8 (stringValue ev.Message) =
      .error "runtime error: slice bounds out of range" from by
        rw [sliceTo8, if_pos hlen]]
  · intro log hlen
    rw [sliceTo8, if_neg (by omega)]

/-- C9 witness: a concrete malformed envelope is fatal, concrete short
payloads panic in both strategies, and a concrete 12-character payload
yields its first 8 characters. -/
theorem extract_failure_contract_witness :
    processLines ⟨[], fun _ => .ok "", fun _ => .error "bad json"⟩
        ["x"] 0 [] = .fatal "[TEST FAILURE] Json Unmarshal Error:" ∧
    processLines ⟨[], fun _ => .ok "", fun _ => .ok ⟨"short"⟩⟩ ["x"] 0 [] =
      .panic "runtime error: slice bounds out of range" ∧
    processEvents [⟨some "short"⟩] 0 [] =
      .panic "runtime error: slice bounds out of range" ∧
    sliceTo8 "10029999_rest" = .ok ("10029999_rest".data.take 8).asString :=
  ⟨extract_failure_contract.1 ⟨[], fun _ => .ok "", fun _ => .error "bad json"⟩
      "x" "bad json" [] 0 [] (by decide) rfl,
    extract_failure_contract.2.1 ⟨[], fun _ => .ok "", fun _ => .ok ⟨"short"⟩⟩
      "x" ⟨"short"⟩ [] 0 [] (by decide) rfl (by decide),
    extract_failure_contract.2.2.1 ⟨some "short"⟩ [] 0 [] (by decide),
    extract_failure_contract.2.2.2 "10029999_rest" (by decide)⟩

/-- C3 counterexample: with every configuration input present but the
total-record-count argument set to the invalid value "0", startup
validation passes — no fatal configuration error is raised — the Record
Universe is built (empty), the destination is read, and the run dies with
a division-by-zero panic inside the Reporter instead of being rejected
before the universe is built. -/
theorem invalid_count_accepted_counterexample :
    mainModel ⟨"us-west-2", "bucket", "group", "prf", "cloudwatch", "0",
        "60s"⟩ none none ⟨[], fun _ => .ok "", fun _ => .error "e"⟩
      [.ok ⟨[], none⟩] = .panic "runtime error: integer divide by zero" := by
  decide

/-- C3 (amended): each missing configuration input is rejected fatally at
startup with its own distinct human-readable message, but an invalid
(zero, negative, or non-numeric) total-record-count argument is NOT
rejected: the parse error is discarded, the Record Universe is built
anyway, and a count parsing to 0 ends in a division-by-zero panic at
reporting time. -/
theorem config_validation_contract :
    (∀ cfg : Config, ∀ s3e cwe env calls, cfg.region = "" →
      mainModel cfg s3e cwe env calls =
        .fatal "[TEST FAILURE] AWS Region required. Set the value for environment variable- AWS_REGION") ∧
    (∀ cfg : Config, ∀ s3e cwe env calls, cfg.region ≠ "" →
      cfg.bucket = "" →
      mainModel cfg s3e cwe env calls =
        .fatal "[TEST FAILURE] Bucket name required. Set the value for environment variable- S3_BUCKET_NAME") ∧
    (∀ cfg : Config, ∀ s3e cwe env calls, cfg.region ≠ "" →
      cfg.bucket ≠ "" → cfg.logGroup = "" →
      mainModel cfg s3e cwe env calls =
        .fatal "[TEST FAILURE] Log group name required. Set the value for environment variable- CW_LOG_GROUP_NAME") ∧
    (∀ cfg : Config, ∀ s3e cwe env calls, cfg.region ≠ "" →
      cfg.bucket ≠ "" → cfg.logGroup ≠ "" → cfg.prefixVal = "" →
      mainModel cfg s3e cwe env calls =
        .fatal "[TEST FAILURE] Object prefix required. Set the value for environment variable- LOG_PREFIX") ∧
    (∀ cfg : Config, ∀ s3e cwe env calls, cfg.region ≠ "" →
      cfg.bucket ≠ "" → cfg.logGroup ≠ "" → cfg.prefixVal ≠ "" →
      cfg.destination = "" →
      mainModel cfg s3e cwe env calls =
        .fatal "[TEST FAILURE] Log destination for validation required. Set the value for environment variable- DESTINATION") ∧
    (∀ cfg : Config, ∀ s3e cwe env calls, cfg.region ≠ "" →
      cfg.bucket ≠ "" → cfg.logGroup ≠ "" → cfg.prefixVal ≠ "" →
      cfg.destination ≠ "" → cfg.arg1 = "" →
      mainModel cfg s3e cwe env calls =
        .fatal "[TEST FAILURE] Total input record number required. Set the value as the first argument") ∧
    (∀ cfg : Config, ∀ s3e cwe env calls, cfg.region ≠ "" →
      cfg.bucket ≠ "" → cfg.logGroup ≠ "" → cfg.prefixVal ≠ "" →
      cfg.destination ≠ "" → cfg.arg1 ≠ "" → cfg.arg2 = "" →
      mainModel cfg s3e cwe env calls =
        .fatal "[TEST FAILURE] Log delay required. Set the value as the second argument") ∧
    List.Nodup
      ["[TEST FAILURE] AWS Region required. Set the value for environment variable- AWS_REGION",
        "[TEST FAILURE] Bucket name required. Set the value for environment variable- S3_BUCKET_NAME",
        "[TEST FAILURE] Log group name required. Set the value for environment variable- CW_LOG_GROUP_NAME",
        "[TEST FAILURE] Object prefix required. Set the value for environment variable- LOG_PREFIX",
        "[TEST FAILURE] Log destination for validation required. Set the value for environment variable- DESTINATION",
        "[TEST FAILURE] Total input record number required. Set the value as the first argument",
        "[TEST FAILURE] Log delay required. Set the value as the second argument"] ∧
    (∀ cfg : Config, ∀ s3e env calls found m, cfg.region ≠ "" →
      cfg.bucket ≠ "" → cfg.logGroup ≠ "" → cfg.prefixVal ≠ "" →
      cfg.arg1 ≠ "" → cfg.arg2 ≠ "" → cfg.destination = "cloudwatch" →
      atoi cfg.arg1 = 0 →
      (validate_cloudwatch calls
        (buildInputMap (atoi cfg.arg1) idCounterBase)).result =
        .ok (found, m) →
      mainModel cfg s3e none env calls =
        .panic "runtime error: integer divide by zero") := by
  refine ⟨?_, ?_, ?_, ?_, ?_, ?_, ?_, by decide, ?_⟩
  · intro cfg s3e cwe env calls h1
    rw [mainModel.eq_def, if_pos h1]
  · intro cfg s3e cwe env calls h1 h2
    rw [mainModel.eq_def, if_neg h1, if_pos h2]
  · intro cfg s3e cwe env calls h1 h2 h3
    rw [mainModel.eq_def, if_neg h1, if_neg h2, if_pos h3]
  · intro cfg s3e cwe env calls h1 h2 h3 h4
    rw [mainModel.eq_def, if_neg h1, if_neg h2, if_neg h3, if_pos h4]
  · intro cfg s3e cwe env calls h1 h2 h3 h4 h5
    rw [mainModel.eq_def, if_neg h1, if_neg h2, if_neg h3, if_neg h4,
      if_pos h5]
  · intro cfg s3e cwe env calls h1 h2 h3 h4 h5 h6
    rw [mainModel.eq_def, if_neg h1, if_neg h2, if_neg h3, if_neg h4,
      if_neg h5, if_pos h6]
  · intro cfg s3e cwe env calls h1 h2 h3 h4 h5 h6 h7
    rw [mainModel.eq_def, if_neg h1, if_neg h2, if_neg h3, if_neg h4,
      if_neg h5, if_neg h6, if_pos h7]
  · intro cfg s3e env calls found m h1 h2 h3 h4 h6 h7 hd h0 hok
    rw [mainModel_cloudwatch_ok cfg s3e env calls found m h1 h2 h3 h4 h6 h7
      hd hok, h0]
    exact get_results_zero_panic found m cfg.arg2

/-- C3 witness: each input missing in turn produces its own fatal message
on a concrete configuration, and the concrete invalid count "0" reaches
the reporting division-by-zero panic. -/
theorem config_validation_contract_witness :
    mainModel ⟨"", "b", "g", "p", "s3", "5", "d"⟩ none none
        ⟨[], fun _ => .ok "", fun _ => .error "e"⟩ [] =
      .fatal "[TEST FAILURE] AWS Region required. Set the value for environment variable- AWS_REGION" ∧
    mainModel ⟨"r", "", "g", "p", "s3", "5", "d"⟩ none none
        ⟨[], fun _ => .ok "", fun _ => .error "e"⟩ [] =
      .fatal "[TEST FAILURE] Bucket name required. Set the value for environment variable- S3_BUCKET_NAME" ∧
    mainModel ⟨"r", "b", "", "p", "s3", "5", "d"⟩ none none
        ⟨[], fun _ => .ok "", fun _ => .error "e"⟩ [] =
      .fatal "[TEST FAILURE] Log group name required. Set the value for environment variable- CW_LOG_GROUP_NAME" ∧
    mainModel ⟨"r", "b", "g", "", "s3", "5", "d"⟩ none none
        ⟨[], fun _ => .ok "", fun _ => .error "e"⟩ [] =
      .fatal "[TEST FAILURE] Object prefix required. Set the value for environment variable- LOG_PREFIX" ∧
    mainModel ⟨"r", "b", "g", "p", "", "5", "d"⟩ none none
        ⟨[], fun _ => .ok "", fun _ => .error "e"⟩ [] =
      .fatal "[TEST FAILURE] Log destination for validation required. Set the value for environment variable- DESTINATION" ∧
    mainModel ⟨"r", "b", "g", "p", "s3", "", "d"⟩ none none
        ⟨[], fun _ => .ok "", fun _ => .error "e"⟩ [] =
      .fatal "[TEST FAILURE] Total input record number required. Set the value as the first argument" ∧
    mainModel ⟨"r", "b", "g", "p", "s3", "5", ""⟩ none none
        ⟨[], fun _ => .ok "", fun _ => .error "e"⟩ [] =
      .fatal "[TEST FAILURE] Log delay required. Set the value as the second argument" ∧
    mainModel ⟨"r", "b", "g", "p", "cloudwatch", "0", "d"⟩ none none
        ⟨[], fun _ => .ok "", fun _ => .error "e"⟩ [.ok ⟨[], none⟩] =
      .panic "runtime error: integer divide by zero" :=
  ⟨config_validation_contract.1 ⟨"", "b", "g", "p", "s3", "5", "d"⟩ none none
      ⟨[], fun _ => .ok "", fun _ => .error "e"⟩ [] rfl,
    config_validation_contract.2.1 ⟨"r", "", "g", "p", "s3", "5", "d"⟩ none
      none ⟨[], fun _ => .ok "", fun _ => .error "e"⟩ [] (by decide) rfl,
    config_validation_contract.2.2.1 ⟨"r", "b", "", "p", "s3", "5", "d"⟩
      none none ⟨[], fun _ => .ok "", fun _ => .error "e"⟩ [] (by decide)
      (by decide) rfl,
    config_validation_contract.2.2.2.1 ⟨"r", "b", "g", "", "s3", "5", "d"⟩
      none none ⟨[], fun _ => .ok "", fun _ => .error "e"⟩ [] (by decide)
      (by decide) (by decide) rfl,
    config_validation_contract.2.2.2.2.1
      ⟨"r", "b", "g", "p", "", "5", "d"⟩ none none
      ⟨[], fun _ => .ok "", fun _ => .error "e"⟩ [] (by decide) (by decide)
      (by decide) (by decide) rfl,
    config_validation_contract.2.2.2.2.2.1
      ⟨"r", "b", "g", "p", "s3", "", "d"⟩ none none
      ⟨[], fun _ => .ok "", fun _ => .error "e"⟩ [] (by decide) (by decide)
      (by decide) (by decide) (by decide) rfl,
    config_validation_contract.2.2.2.2.2.2.1
      ⟨"r", "b", "g", "p", "s3", "5", ""⟩ none none
      ⟨[], fun _ => .ok "", fun _ => .error "e"⟩ [] (by decide) (by decide)
      (by decide) (by decide) (by decide) (by decide) rfl,
    config_validation_contract.2.2.2.2.2.2.2.2
      ⟨"r", "b", "g", "p", "cloudwatch", "0", "d"⟩ none
      ⟨[], fun _ => .ok "", fun _ => .error "e"⟩ [.ok ⟨[], none⟩] 0 []
      (by decide) (by decide) (by decide) (by decide) (by decide)
      (by decide) rfl (by decide) (by decide)⟩

/-- C10: for a non-empty destination other than the literals "s3" and
"cloudwatch" (and a positive parsed count), the program reads no
destination at all — its outcome does not depend on the modelled
collaborators — and still reports with totalRecordFound = 0, zero unique
and duplicate records, every universe flag false, 100 percent loss, and a
normal (exit 0) completion. -/
theorem unknown_destination_contract (cfg : Config) (s3e cwe : Option String)
    (env env' : S3Env) (calls calls' : List CWCall)
    (h1 : cfg.region ≠ "") (h2 : cfg.bucket ≠ "") (h3 : cfg.logGroup ≠ "")
    (h4 : cfg.prefixVal ≠ "") (h5 : cfg.destination ≠ "")
    (h6 : cfg.arg1 ≠ "") (h7 : cfg.arg2 ≠ "")
    (hd1 : cfg.destination ≠ "s3") (hd2 : cfg.destination ≠ "cloudwatch")
    (hn : 0 < atoi cfg.arg1) :
    mainModel cfg s3e cwe env calls =
      .ok ⟨atoi cfg.arg1, 0, 0, 0, cfg.arg2, 100, some (atoi cfg.arg1)⟩ ∧
    mainModel cfg s3e cwe env calls = mainModel cfg s3e cwe env' calls' ∧
    (∀ p ∈ buildInputMap (atoi cfg.arg1) idCounterBase, p.2 = false) := by
  have hmain := mainModel_unknown_dest cfg s3e cwe env calls h1 h2 h3 h4 h5
    h6 h7 hd1 hd2
  have hmain' := mainModel_unknown_dest cfg s3e cwe env' calls' h1 h2 h3 h4
    h5 h6 h7 hd1 hd2
  have hct : countTrue (buildInputMap (atoi cfg.arg1) idCounterBase) = 0 :=
    countTrue_buildInputMap (atoi cfg.arg1) idCounterBase
  refine ⟨?_, by rw [hmain, hmain'],
    buildInputMap_flags_false (atoi cfg.arg1) idCounterBase⟩
  rw [hmain, get_results_ok (atoi cfg.arg1) 0 _ cfg.arg2 (by omega), hct]
  have h100 : Int.tdiv ((atoi cfg.arg1 - ((0 : Nat) : Int)) * 100)
      (atoi cfg.arg1) = 100 := by
    rw [Nat.cast_zero, Int.sub_zero,
      Int.mul_tdiv_cancel_left 100 (by omega)]
  rw [h100, if_pos (by omega : atoi cfg.arg1 ≠ ((0 : Nat) : Int))]
  simp

/-- C10 witness: a concrete run with destination "kinesis" reports 100
percent loss with zero records found and completes normally. -/
theorem unknown_destination_contract_witness :
    mainModel ⟨"r", "b", "g", "p", "kinesis", "5", "60s"⟩ none none
        ⟨[], fun _ => .ok "", fun _ => .error "e"⟩ [] =
      .ok ⟨5, 0, 0, 0, "60s", 100, some 5⟩ := by
  rw [(unknown_destination_contract ⟨"r", "b", "g", "p", "kinesis", "5",
      "60s"⟩ none none ⟨[], fun _ => .ok "", fun _ => .error "e"⟩
      ⟨[], fun _ => .ok "", fun _ => .error "e"⟩ [] [] (by decide)
      (by decide) (by decide) (by decide) (by decide) (by decide)
      (by decide) (by decide) (by decide) (by decide)).1]
  decide

end ValidateGo
